import Mathlib

/-!
Verification development for a small scrape-then-aggregate pipeline
(src/scraper.py and src/app.py): a GraphQL cursor-paginated review
scraper with optional sentiment classification, JSON persistence, and a
dashboard that filters reviews by month of 2023 and renders aggregate
metrics.  The Python functions are shallowly embedded as executable Lean
definitions; network responses, the Selenium/BeautifulSoup fetch
attempts and the sentiment model are parameters of the embedding.
-/

set_option autoImplicit false

/-! ## Dates

`scraper.py` parses review dates with `datetime.strptime(date_str, "%Y-%m-%d")`
and re-renders them with `strftime("%Y-%m-%d")`.  `strptime` with that format
accepts exactly four digits for `%Y`, one or two digits for `%m` (value 1..12)
and `%d` (value 1..31), separated by literal dashes, consuming the whole
string; `datetime` then validates the day against the month length and the
year against MINYEAR = 1 (four digits already cap the year at 9999).
-/

structure Date where
  year : Nat
  month : Nat
  day : Nat
deriving DecidableEq, Repr

def isLeap (y : Nat) : Bool :=
  (y % 4 == 0 && y % 100 != 0) || (y % 400 == 0)

def daysInMonth (y m : Nat) : Nat :=
  if m = 2 then (if isLeap y then 29 else 28)
  else if m = 4 ∨ m = 6 ∨ m = 9 ∨ m = 11 then 30
  else 31

def isDigitCh (c : Char) : Bool :=
  '0' ≤ c && c ≤ '9'

/-- Numeric value of a digit string, as read by Python int conversion. -/
def digitsVal (cs : List Char) : Nat :=
  cs.foldl (fun a c => a * 10 + (c.toNat - 48)) 0

/-- Split a character list at every dash, like Python str.split on a dash. -/
def splitDash : List Char → List (List Char)
  | [] => [[]]
  | c :: rest =>
    match splitDash rest with
    | [] => [[c]]
    | g :: gs => if c = '-' then [] :: g :: gs else (c :: g) :: gs

/-- Embedding of `datetime.strptime(s, "%Y-%m-%d")`: `some` on success,
`none` where Python raises ValueError. -/
def parseDate (s : String) : Option Date :=
  match splitDash s.data with
  | [ys, ms, ds] =>
    if ys.length = 4 ∧ ys.all isDigitCh
        ∧ (ms.length = 1 ∨ ms.length = 2) ∧ ms.all isDigitCh
        ∧ (ds.length = 1 ∨ ds.length = 2) ∧ ds.all isDigitCh then
      if 1 ≤ digitsVal ys ∧ 1 ≤ digitsVal ms ∧ digitsVal ms ≤ 12
          ∧ 1 ≤ digitsVal ds
          ∧ digitsVal ds ≤ daysInMonth (digitsVal ys) (digitsVal ms) then
        some ⟨digitsVal ys, digitsVal ms, digitsVal ds⟩
      else none
    else none
  | _ => none

def pad2Ch (n : Nat) : List Char :=
  [Char.ofNat (48 + n / 10 % 10), Char.ofNat (48 + n % 10)]

def pad4Ch (n : Nat) : List Char :=
  [Char.ofNat (48 + n / 1000 % 10), Char.ofNat (48 + n / 100 % 10),
   Char.ofNat (48 + n / 10 % 10), Char.ofNat (48 + n % 10)]

/-- Embedding of `date_obj.strftime("%Y-%m-%d")` (zero-padded rendering). -/
def formatDate (dt : Date) : String :=
  String.mk (pad4Ch dt.year ++ '-' :: pad2Ch dt.month ++ '-' :: pad2Ch dt.day)

lemma daysInMonth_le_31 (y m : Nat) : daysInMonth y m ≤ 31 := by
  unfold daysInMonth
  split_ifs <;> omega

lemma parseDate_bounds {s : String} {dt : Date} (hp : parseDate s = some dt) :
    1 ≤ dt.year ∧ 1 ≤ dt.month ∧ dt.month ≤ 12 ∧ 1 ≤ dt.day
      ∧ dt.day ≤ daysInMonth dt.year dt.month := by
  unfold parseDate at hp
  split at hp
  · split_ifs at hp with h1 h2
    injection hp with hdt
    subst hdt
    exact ⟨h2.1, h2.2.1, h2.2.2.1, h2.2.2.2.1, h2.2.2.2.2⟩
  · exact absurd hp (by simp)

lemma parse_format_roundtrip_2023 :
    ∀ m, 1 ≤ m → m < 13 → ∀ d, 1 ≤ d → d < 32 →
      (d ≤ daysInMonth 2023 m →
        parseDate (formatDate ⟨2023, m, d⟩) = some ⟨2023, m, d⟩) := by
  decide

/-! ## Sentiment pipeline and module state

`scraper.py` keeps a module-level `sentiment_pipeline` (initially `None`) and
`load_sentiment_model` fills it on demand.  The Hugging Face pipeline object is
modelled as a classification function returning a label and a score; `none`
from the function models a classification call that raises.
-/

structure PipelineObj where
  classify : String → Option (String × ℚ)

/-- Python round-half-to-even of a rational to the nearest integer. -/
def roundHalfEven (x : ℚ) : ℤ :=
  let n := ⌊x⌋
  if x - n < 1 / 2 then n
  else if 1 / 2 < x - n then n + 1
  else if n % 2 = 0 then n else n + 1

/-- Embedding of Python `round(score, 4)`. -/
def round4 (q : ℚ) : ℚ :=
  (roundHalfEven (q * 10000) : ℚ) / 10000

/-- Sentiment label and confidence for one review text, following the body of
the scrape loop: `UNKNOWN`/`0.0` defaults, kept when the model is not loaded,
the text is empty, or classification raises; otherwise the model label and the
score rounded to 4 decimals.  The model classifies `text[:512]`. -/
def computeSentiment (model : Option PipelineObj) (text : String) : String × ℚ :=
  match model with
  | none => ("UNKNOWN", 0)
  | some f =>
    if text = "" then ("UNKNOWN", 0)
    else
      match f.classify (text.take 512) with
      | none => ("UNKNOWN", 0)
      | some (lab, sc) => (lab, round4 sc)

/-! ## The review scrape loop (`scrape_reviews`)

A GraphQL node as delivered by the server: every field may be absent, and the
loop reads them with `node.get(key, default)`.  A server reply is either a
decoded response or an exception (`requests.post`, `raise_for_status` or
`response.json()` raising); the whole loop sits in one try/except that
returns `[]` on an exception.
-/

structure RawNode where
  rid : Option String
  text : Option String
  rating : Option Int
  date : Option String
deriving DecidableEq, Repr

structure GQLResponse where
  errors : Bool
  edges : List RawNode
  endCursor : Option String
  hasNextPage : Bool
deriving DecidableEq, Repr

inductive ServerReply where
  | ok (r : GQLResponse)
  | exn
deriving DecidableEq, Repr

/-- Variables of one GraphQL request: the batch size and the optional cursor. -/
structure ReqVars where
  first : Nat
  after : Option String
deriving DecidableEq, Repr

/-- Python truthiness of the `cursor` variable (`if cursor:`):
`None` and the empty string are falsy. -/
def pyTruthy : Option String → Bool
  | none => false
  | some s => s != ""

def toLowerCh (c : Char) : Char := c.toLower

/-- Python `word.capitalize()`: first character uppercased, rest lowercased
(ASCII model). -/
def capitalizeCh : List Char → List Char
  | [] => []
  | c :: cs => c.toUpper :: cs.map toLowerCh

/-- Title built from the review id:
`" ".join(word.capitalize() for word in review_id.rsplit(HYPHEN, 1)[0].split(HYPHEN))`
followed by `" Review"`. -/
def mkTitle (rid : String) : String :=
  let groups := splitDash rid.data
  let base := if 2 ≤ groups.length then groups.dropLast else groups
  String.mk (List.intercalate [' '] (base.map capitalizeCh) ++ " Review".data)

/-- One normalized review record, with the fields of the dict appended to
`all_reviews` in `scrape_reviews`. -/
structure Review where
  id : String
  title : String
  text : String
  rating : Int
  date : String
  sectionName : String
  sentiment : String
  confidence : ℚ
deriving DecidableEq, Repr

/-- The record appended to `all_reviews` for a node whose date parsed as `d`
(with `d.year = 2023`).  The loaded-model state is the `model` parameter;
in the code the pipeline is loaded once and cached, so it is the same for
every node of a run. -/
def mkReview (model : Option PipelineObj) (n : RawNode) (d : Date) : Review :=
  let rid := n.rid.getD "unknown"
  let txt := n.text.getD ""
  let sent := computeSentiment model txt
  { id := rid
    title := mkTitle rid
    text := txt
    rating := n.rating.getD 0
    date := formatDate d
    sectionName := "Reviews"
    sentiment := sent.1
    confidence := sent.2 }

/-- The date guard of the loop body: the parsed date when
`datetime.strptime(date_str, "%Y-%m-%d")` succeeds and the year is 2023,
otherwise `none` (the `continue` branches). -/
def nodeDate (n : RawNode) : Option Date :=
  match parseDate (n.date.getD "") with
  | none => none
  | some d => if d.year = 2023 then some d else none

/-- The `for edge in edges` body: records for nodes whose date parses with
year 2023, in order; other nodes are skipped by `continue`. -/
def processEdges (model : Option PipelineObj) : List RawNode → List Review
  | [] => []
  | n :: ns =>
    match parseDate (n.date.getD "") with
    | none => processEdges model ns
    | some d =>
      if d.year = 2023 then mkReview model n d :: processEdges model ns
      else processEdges model ns

/-- The `while has_next_page and page_num <= max_pages` loop.  `fuel` is the
number of pages the budget still allows (`max_pages - page_num + 1`), `k` the
number of requests already sent (`server k` answers the next request), and
`cursor` the current cursor variable.  Returns the request variables sent and
`some` collected reviews, or `none` when a reply raised (the exception
propagates to the enclosing try/except). -/
def scrapeAux (server : Nat → ServerReply) (model : Option PipelineObj) :
    Nat → Nat → Option String → List ReqVars × Option (List Review)
  | 0, _, _ => ([], some [])
  | fuel + 1, k, cursor =>
    match server k with
    | ServerReply.exn => ([⟨50, if pyTruthy cursor then cursor else none⟩], none)
    | ServerReply.ok r =>
      if r.errors then ([⟨50, if pyTruthy cursor then cursor else none⟩], some [])
      else if r.edges.isEmpty then
        ([⟨50, if pyTruthy cursor then cursor else none⟩], some [])
      else if r.hasNextPage then
        (⟨50, if pyTruthy cursor then cursor else none⟩ ::
            (scrapeAux server model fuel (k + 1) r.endCursor).1,
          ((scrapeAux server model fuel (k + 1) r.endCursor).2).map
            (fun more => processEdges model r.edges ++ more))
      else
        ([⟨50, if pyTruthy cursor then cursor else none⟩],
          some (processEdges model r.edges))

/-- `scrape_reviews`: runs the paging loop with `batch_size = 50` and
`max_pages = 20` starting from no cursor; the surrounding try/except returns
`[]` when an exception escaped the loop.  The first component records the
variables of each request actually posted. -/
def scrape_reviews (server : Nat → ServerReply) (model : Option PipelineObj) :
    List ReqVars × List Review :=
  match scrapeAux server model 20 0 none with
  | (reqs, none) => (reqs, [])
  | (reqs, some revs) => (reqs, revs)

/-! ### Structure of the request sequence -/

/-- The loop continues past request `k` exactly when the reply decoded with no
GraphQL errors, a non-empty edge list, and `hasNextPage` true. -/
def contin (server : Nat → ServerReply) (k : Nat) : Bool :=
  match server k with
  | ServerReply.exn => false
  | ServerReply.ok r => !r.errors && !r.edges.isEmpty && r.hasNextPage

/-- The `endCursor` carried by reply `k` (if it decoded). -/
def srvCursor (server : Nat → ServerReply) (k : Nat) : Option String :=
  match server k with
  | ServerReply.exn => none
  | ServerReply.ok r => r.endCursor

/-- The `after` variable the loop attaches to the request following reply `k`:
the `endCursor` when truthy, omitted otherwise (`if cursor:`). -/
def nextAfter (server : Nat → ServerReply) (k : Nat) : Option String :=
  if pyTruthy (srvCursor server k) then srvCursor server k else none

lemma scrapeAux_succ_fst (server : Nat → ServerReply) (model : Option PipelineObj)
    (fuel k : Nat) (cursor : Option String) :
    (scrapeAux server model (fuel + 1) k cursor).1 =
      ⟨50, if pyTruthy cursor then cursor else none⟩ ::
        (if contin server k then
          (scrapeAux server model fuel (k + 1) (srvCursor server k)).1
        else []) := by
  simp only [scrapeAux, contin, srvCursor]
  cases hk : server k with
  | exn => simp
  | ok r =>
    by_cases he : r.errors <;> by_cases hed : r.edges.isEmpty <;>
      by_cases hn : r.hasNextPage <;> simp [he, hed, hn]

lemma scrapeAux_fst_length_le (server : Nat → ServerReply) (model : Option PipelineObj) :
    ∀ fuel k cursor, (scrapeAux server model fuel k cursor).1.length ≤ fuel := by
  intro fuel
  induction fuel with
  | zero => intro k cursor; simp [scrapeAux]
  | succ fuel ih =>
    intro k cursor
    rw [scrapeAux_succ_fst]
    by_cases hc : contin server k
    · simp only [hc, if_true, List.length_cons]
      exact Nat.succ_le_succ (ih (k + 1) (srvCursor server k))
    · simp [hc]

lemma scrapeAux_fst_ne_nil (server : Nat → ServerReply) (model : Option PipelineObj)
    (fuel k : Nat) (cursor : Option String) (h : 0 < fuel) :
    (scrapeAux server model fuel k cursor).1 ≠ [] := by
  cases fuel with
  | zero => omega
  | succ fuel => rw [scrapeAux_succ_fst]; simp

lemma scrapeAux_fst_get_zero (server : Nat → ServerReply) (model : Option PipelineObj)
    (fuel k : Nat) (cursor : Option String) (h : 0 < fuel) :
    (scrapeAux server model fuel k cursor).1[0]? =
      some ⟨50, if pyTruthy cursor then cursor else none⟩ := by
  cases fuel with
  | zero => omega
  | succ fuel => rw [scrapeAux_succ_fst]; simp

lemma scrapeAux_fst_first (server : Nat → ServerReply) (model : Option PipelineObj) :
    ∀ fuel k cursor v, v ∈ (scrapeAux server model fuel k cursor).1 → v.first = 50 := by
  intro fuel
  induction fuel with
  | zero => intro k cursor v hv; simp [scrapeAux] at hv
  | succ fuel ih =>
    intro k cursor v hv
    rw [scrapeAux_succ_fst] at hv
    by_cases hc : contin server k
    · simp only [hc, if_true, List.mem_cons] at hv
      rcases hv with h | h
      · rw [h]
      · exact ih _ _ v h
    · simp [hc] at hv
      rw [hv]

lemma scrapeAux_fst_get_succ (server : Nat → ServerReply) (model : Option PipelineObj) :
    ∀ fuel k cursor i, i + 1 < (scrapeAux server model fuel k cursor).1.length →
      (scrapeAux server model fuel k cursor).1[i + 1]? =
        some ⟨50, nextAfter server (k + i)⟩ := by
  intro fuel
  induction fuel with
  | zero => intro k cursor i h; simp [scrapeAux] at h
  | succ fuel ih =>
    intro k cursor i h
    rw [scrapeAux_succ_fst] at h ⊢
    by_cases hc : contin server k
    · simp only [hc, if_true, List.length_cons] at h
      cases i with
      | zero =>
        have hrest :
            0 < (scrapeAux server model fuel (k + 1) (srvCursor server k)).1.length := by
          omega
        have hfuel : 0 < fuel := by
          cases fuel with
          | zero => simp [scrapeAux] at hrest
          | succ f => exact Nat.succ_pos f
        have h0 := scrapeAux_fst_get_zero server model fuel (k + 1) (srvCursor server k) hfuel
        simp only [hc, if_true, List.getElem?_cons_succ, h0, nextAfter, Nat.add_zero]
      | succ i =>
        have h2 : i + 1 < (scrapeAux server model fuel (k + 1) (srvCursor server k)).1.length := by
          omega
        have hi := ih (k + 1) (srvCursor server k) i h2
        simp only [hc, if_true, List.getElem?_cons_succ, hi]
        have hx : k + 1 + i = k + (i + 1) := by omega
        rw [hx]
    · rw [if_neg hc] at h
      simp only [List.length_cons, List.length_nil] at h
      omega

lemma scrapeAux_fst_len_iff (server : Nat → ServerReply) (model : Option PipelineObj) :
    ∀ fuel k cursor i,
      i + 1 < (scrapeAux server model fuel k cursor).1.length ↔
        (i + 1 < fuel ∧ ∀ j, j ≤ i → contin server (k + j) = true) := by
  intro fuel
  induction fuel with
  | zero => intro k cursor i; simp [scrapeAux]
  | succ fuel ih =>
    intro k cursor i
    rw [scrapeAux_succ_fst]
    by_cases hc : contin server k
    · simp only [hc, if_true, List.length_cons]
      cases i with
      | zero =>
        constructor
        · intro h
          have hrest :
              0 < (scrapeAux server model fuel (k + 1) (srvCursor server k)).1.length := by
            omega
          have hfuel : 0 < fuel := by
            cases fuel with
            | zero => simp [scrapeAux] at hrest
            | succ f => exact Nat.succ_pos f
          refine ⟨by omega, ?_⟩
          intro j hj
          have hj0 : j = 0 := by omega
          rw [hj0, Nat.add_zero]
          exact hc
        · intro h
          have hfuel : 0 < fuel := by omega
          have := scrapeAux_fst_ne_nil server model fuel (k + 1) (srvCursor server k) hfuel
          have hpos := List.length_pos.mpr this
          omega
      | succ i =>
        have hiff := ih (k + 1) (srvCursor server k) i
        constructor
        · intro h
          have h2 : i + 1 < (scrapeAux server model fuel (k + 1) (srvCursor server k)).1.length := by
            omega
          obtain ⟨hf, hall⟩ := hiff.mp h2
          refine ⟨by omega, ?_⟩
          intro j hj
          cases j with
          | zero => rw [Nat.add_zero]; exact hc
          | succ j =>
            have hx : k + (j + 1) = k + 1 + j := by omega
            rw [hx]
            exact hall j (by omega)
        · intro h
          obtain ⟨h1, h2⟩ := h
          have hall : ∀ j, j ≤ i → contin server (k + 1 + j) = true := by
            intro j hj
            have hx : k + 1 + j = k + (j + 1) := by omega
            rw [hx]
            exact h2 (j + 1) (by omega)
          have := hiff.mpr ⟨by omega, hall⟩
          omega
    · rw [if_neg hc]
      simp only [List.length_cons, List.length_nil]
      constructor
      · intro h; omega
      · intro h
        have h0 := h.2 0 (Nat.zero_le i)
        rw [Nat.add_zero] at h0
        exact absurd h0 (by simpa using hc)

lemma scrape_reviews_fst (server : Nat → ServerReply) (model : Option PipelineObj) :
    (scrape_reviews server model).1 = (scrapeAux server model 20 0 none).1 := by
  cases h : scrapeAux server model 20 0 none with
  | mk reqs o => cases o <;> simp [scrape_reviews, h]

lemma processEdges_eq_filterMap (model : Option PipelineObj) (nodes : List RawNode) :
    processEdges model nodes =
      nodes.filterMap (fun n => (nodeDate n).map (mkReview model n)) := by
  induction nodes with
  | nil => rfl
  | cons n ns ih =>
    cases hp : parseDate (n.date.getD "") with
    | none => simp [processEdges, nodeDate, hp, ih]
    | some d =>
      by_cases hy : d.year = 2023 <;> simp [processEdges, nodeDate, hp, hy, ih]

lemma processEdges_dates (model : Option PipelineObj) (nodes : List RawNode) :
    ∀ rv ∈ processEdges model nodes,
      ∃ d, parseDate rv.date = some d ∧ d.year = 2023 := by
  induction nodes with
  | nil => intro rv hv; simp [processEdges] at hv
  | cons n ns ih =>
    intro rv hv
    cases hp : parseDate (n.date.getD "") with
    | none =>
      simp only [processEdges, hp] at hv
      exact ih rv hv
    | some d =>
      by_cases hy : d.year = 2023
      · simp only [processEdges, hp, hy, if_true, List.mem_cons] at hv
        rcases hv with hv | hv
        · subst hv
          obtain ⟨yy, mm, dd⟩ := d
          obtain ⟨hy1, hm1, hm12, hd1, hdm⟩ := parseDate_bounds hp
          simp only at hy hm1 hm12 hd1 hdm
          subst hy
          refine ⟨⟨2023, mm, dd⟩, ?_, rfl⟩
          have hdm31 : dd ≤ 31 := le_trans hdm (daysInMonth_le_31 2023 mm)
          have := parse_format_roundtrip_2023 mm hm1 (by omega) dd hd1 (by omega) hdm
          simpa [mkReview] using this
        · exact ih rv hv
      · simp only [processEdges, hp] at hv
        rw [if_neg hy] at hv
        exact ih rv hv

lemma processEdges_length_model (model : Option PipelineObj) (nodes : List RawNode) :
    (processEdges model nodes).length = (processEdges none nodes).length := by
  induction nodes with
  | nil => rfl
  | cons n ns ih =>
    cases hp : parseDate (n.date.getD "") with
    | none => simp [processEdges, hp, ih]
    | some d => by_cases hy : d.year = 2023 <;> simp [processEdges, hp, hy, ih]

lemma scrapeAux_succ_snd (server : Nat → ServerReply) (model : Option PipelineObj)
    (fuel k : Nat) (cursor : Option String) :
    (scrapeAux server model (fuel + 1) k cursor).2 =
      match server k with
      | ServerReply.exn => none
      | ServerReply.ok r =>
        if r.errors then some []
        else if r.edges.isEmpty then some []
        else if r.hasNextPage then
          ((scrapeAux server model fuel (k + 1) r.endCursor).2).map
            (fun more => processEdges model r.edges ++ more)
        else some (processEdges model r.edges) := by
  simp only [scrapeAux]
  cases hk : server k with
  | exn => simp
  | ok r =>
    by_cases he : r.errors <;> by_cases hed : r.edges.isEmpty <;>
      by_cases hn : r.hasNextPage <;> simp [he, hed, hn]

lemma scrapeAux_snd_dates (server : Nat → ServerReply) (model : Option PipelineObj) :
    ∀ fuel k cursor revs, (scrapeAux server model fuel k cursor).2 = some revs →
      ∀ rv ∈ revs, ∃ d, parseDate rv.date = some d ∧ d.year = 2023 := by
  intro fuel
  induction fuel with
  | zero =>
    intro k cursor revs h rv hv
    simp only [scrapeAux] at h
    injection h with h
    subst h
    simp at hv
  | succ fuel ih =>
    intro k cursor revs h rv hv
    rw [scrapeAux_succ_snd] at h
    cases hks : server k with
    | exn => rw [hks] at h; simp at h
    | ok r =>
      rw [hks] at h
      dsimp only at h
      by_cases he : r.errors
      · rw [if_pos he] at h
        injection h with h
        subst h
        simp at hv
      · rw [if_neg he] at h
        by_cases hed : r.edges.isEmpty
        · rw [if_pos hed] at h
          injection h with h
          subst h
          simp at hv
        · rw [if_neg hed] at h
          by_cases hn : r.hasNextPage
          · rw [if_pos hn] at h
            rcases Option.map_eq_some'.mp h with ⟨more, hmore, hrevs⟩
            subst hrevs
            rcases List.mem_append.mp hv with hmem | hmem
            · exact processEdges_dates model r.edges rv hmem
            · exact ih (k + 1) r.endCursor more hmore rv hmem
          · rw [if_neg hn] at h
            injection h with h
            subst h
            exact processEdges_dates model r.edges rv hv

/-! ### Concrete servers used as witnesses and counterexamples -/

/-- A node whose date is valid and in 2023. -/
def goodNode : RawNode := ⟨some "box-1", some "nice", some 5, some "2023-05-07"⟩

/-- A node whose date parses but is not in 2023. -/
def oldNode : RawNode := ⟨some "x-1", some "", some 5, some "1999-01-01"⟩

/-- Server that answers one full page and reports no further pages. -/
def oneStopServer : Nat → ServerReply :=
  fun _ => ServerReply.ok ⟨false, [goodNode], none, false⟩

/-- Server whose every reply has a non-empty page and `hasNextPage` true. -/
def allNextServer : Nat → ServerReply :=
  fun _ => ServerReply.ok ⟨false, [oldNode], some "c", true⟩

/-- Server whose first reply carries `hasNextPage = true` with an empty-string
`endCursor`, and whose second reply stops the loop. -/
def cxServer : Nat → ServerReply
  | 0 => ServerReply.ok ⟨false, [goodNode], some "", true⟩
  | _ + 1 => ServerReply.ok ⟨false, [goodNode], none, false⟩

/-- Server that raises on the second request, after a first page that already
yielded reviews. -/
def exnAfterOneServer : Nat → ServerReply
  | 0 => ServerReply.ok ⟨false, [goodNode], some "c", true⟩
  | _ + 1 => ServerReply.exn

/-- C3 counterexample: the first reply reports `endCursor` as the empty string
with `hasNextPage` true, yet the second request omits the `after` variable
(`if cursor:` is false for an empty string), so the previous `endCursor` is
not passed. -/
theorem scrape_reviews_cursor_not_forwarded_when_falsy :
    (scrape_reviews cxServer none).1 = [⟨50, none⟩, ⟨50, none⟩] ∧
    srvCursor cxServer 0 = some "" ∧
    (⟨50, none⟩ : ReqVars).after ≠ some "" := by
  refine ⟨by decide, rfl, by simp⟩

/-- C3 (amended): every request asks for a batch of 50; the first request has
no `after`; each subsequent request carries `after` equal to the previous
`endCursor` of the previous reply whenever that cursor is truthy (and omits it otherwise);
and a further request is sent exactly while the page budget of 20 is not
exhausted and every earlier reply decoded without GraphQL errors, had a
non-empty edge list, and reported `hasNextPage` true. -/
theorem scrape_reviews_cursor_loop (server : Nat → ServerReply)
    (model : Option PipelineObj) :
    (∀ v ∈ (scrape_reviews server model).1, v.first = 50) ∧
    (scrape_reviews server model).1[0]? = some ⟨50, none⟩ ∧
    (∀ i, i + 1 < (scrape_reviews server model).1.length →
      (scrape_reviews server model).1[i + 1]? = some ⟨50, nextAfter server i⟩) ∧
    (∀ i, i + 1 < (scrape_reviews server model).1.length ↔
      (i + 1 < 20 ∧ ∀ j, j ≤ i → contin server j = true)) := by
  rw [scrape_reviews_fst]
  refine ⟨?_, ?_, ?_, ?_⟩
  · exact fun v hv => scrapeAux_fst_first server model 20 0 none v hv
  · have h0 := scrapeAux_fst_get_zero server model 20 0 none (by omega)
    simpa [pyTruthy] using h0
  · intro i hi
    have hs := scrapeAux_fst_get_succ server model 20 0 none i hi
    simpa using hs
  · intro i
    have hl := scrapeAux_fst_len_iff server model 20 0 none i
    simpa using hl

/-- Witness for the amended C3 statement at a concrete server. -/
theorem scrape_reviews_cursor_loop_witness :
    (⟨50, none⟩ : ReqVars).first = 50 ∧
    (scrape_reviews oneStopServer none).1[0]? = some ⟨50, none⟩ :=
  ⟨(scrape_reviews_cursor_loop oneStopServer none).1 ⟨50, none⟩ (by decide),
    (scrape_reviews_cursor_loop oneStopServer none).2.1⟩

/-- C8: the paging loop terminates after at most `max_pages = 20` requests for
every sequence of server replies, and a server that always reports
`hasNextPage = true` is asked exactly 20 times. -/
theorem scrape_reviews_page_budget (server : Nat → ServerReply)
    (model : Option PipelineObj) :
    (scrape_reviews server model).1.length ≤ 20 ∧
    (scrape_reviews allNextServer none).1.length = 20 := by
  constructor
  · rw [scrape_reviews_fst]
    exact scrapeAux_fst_length_le server model 20 0 none
  · decide

/-- C9: every record returned by `scrape_reviews` carries a date that parses
as `YYYY-MM-DD` with year exactly 2023, and the edge-processing loop keeps
exactly the nodes whose date parses with year 2023 (all others are silently
dropped by `continue`). -/
theorem scrape_reviews_dates_2023 :
    (∀ server model rv, rv ∈ (scrape_reviews server model).2 →
      ∃ d, parseDate rv.date = some d ∧ d.year = 2023) ∧
    (∀ model nodes, processEdges model nodes =
      nodes.filterMap (fun n => (nodeDate n).map (mkReview model n))) := by
  constructor
  · intro server model rv hv
    cases h : scrapeAux server model 20 0 none with
    | mk reqs o =>
      cases o with
      | none =>
        simp only [scrape_reviews, h] at hv
        simp at hv
      | some revs =>
        simp only [scrape_reviews, h] at hv
        exact scrapeAux_snd_dates server model 20 0 none revs (by rw [h]) rv hv
  · exact processEdges_eq_filterMap

/-- Witness for C9 at a concrete server and record. -/
theorem scrape_reviews_dates_2023_witness :
    ∃ d, parseDate (mkReview none goodNode ⟨2023, 5, 7⟩).date = some d
      ∧ d.year = 2023 :=
  scrape_reviews_dates_2023.1 oneStopServer none
    (mkReview none goodNode ⟨2023, 5, 7⟩) (by decide)

/-! ## Persistence (`main`) and loading (`load_data`)

`main` collects the three scraped lists into one dict and `json.dump`s it to
`data.json`; `load_data` in `app.py` reads the file back, builds one dataframe
per section with `pd.DataFrame(data.get(key, []))` and converts the review
date column with `pd.to_datetime(..., errors="coerce")`.  JSON values are
modelled by an inductive type; a `jdate` constructor stands for the pandas
datetime cells produced by the conversion (`jdate none` is `NaT`).  The
textual serialization layer of `json.dump`/`json.load` is abstracted away:
the file content is modelled as the JSON value itself, `none` standing for a
file that is missing or fails to read or parse.
-/

inductive Json where
  | null
  | jbool (b : Bool)
  | jnum (q : ℚ)
  | jstr (s : String)
  | jdate (d : Option Date)
  | jarr (elems : List Json)
  | jobj (fields : List (String × Json))

/-- A product record as built by `scrape_products` (both the Selenium path and
the BeautifulSoup fallback emit dicts with these keys). -/
structure Product where
  id : String
  name : String
  url : String
  price : String
  description : String
  image : String
  sectionName : String
deriving DecidableEq, Repr

/-- A testimonial record as built by `scrape_testimonials`. -/
structure Testimonial where
  id : String
  text : String
  author : String
  rating : Nat
  sectionName : String
deriving DecidableEq, Repr

/-- The dict persisted for one review (key order of the literal in
`scrape_reviews`; the `section` key is modelled by the `sectionName` field). -/
def Review.toJson (rv : Review) : Json :=
  Json.jobj [("id", Json.jstr rv.id), ("title", Json.jstr rv.title),
    ("text", Json.jstr rv.text), ("rating", Json.jnum rv.rating),
    ("date", Json.jstr rv.date), ("section", Json.jstr rv.sectionName),
    ("sentiment", Json.jstr rv.sentiment),
    ("confidence", Json.jnum rv.confidence)]

def Product.toJson (p : Product) : Json :=
  Json.jobj [("id", Json.jstr p.id), ("name", Json.jstr p.name),
    ("url", Json.jstr p.url), ("price", Json.jstr p.price),
    ("description", Json.jstr p.description), ("image", Json.jstr p.image),
    ("section", Json.jstr p.sectionName)]

def Testimonial.toJson (t : Testimonial) : Json :=
  Json.jobj [("id", Json.jstr t.id), ("text", Json.jstr t.text),
    ("author", Json.jstr t.author), ("rating", Json.jnum t.rating),
    ("section", Json.jstr t.sectionName)]

/-- The `all_data` dict that `main` writes to `data.json`. -/
def allDataJson (rvs : List Review) (pds : List Product)
    (tms : List Testimonial) : Json :=
  Json.jobj [("reviews", Json.jarr (rvs.map Review.toJson)),
    ("products", Json.jarr (pds.map Product.toJson)),
    ("testimonials", Json.jarr (tms.map Testimonial.toJson))]

/-- Top-level keys of a JSON object (empty for non-objects). -/
def objKeys : Json → List String
  | Json.jobj kvs => kvs.map (fun kv => kv.1)
  | _ => []

/-- First-match association lookup, the model of a Python dict `get`. -/
def lookupKey : List (String × Json) → String → Option Json
  | [], _ => none
  | (k2, v) :: rest, k => if k2 == k then some v else lookupKey rest k

/-- Rows handed to `pd.DataFrame(data.get(key, []))`: a missing key defaults
to `[]`; a present list gives its elements; `data.get` on a non-dict raises
AttributeError and a non-list section makes `pd.DataFrame` raise, both landing
in the enclosing except branch (modelled as `none`). -/
def getSection (j : Json) (k : String) : Option (List Json) :=
  match j with
  | Json.jobj kvs =>
    match lookupKey kvs k with
    | none => some []
    | some (Json.jarr l) => some l
    | some _ => none
  | _ => none

/-- Whether the dataframe built from these rows has a column `k`
(pandas takes the union of the dict keys). -/
def colContains (rows : List Json) (k : String) : Bool :=
  rows.any fun r =>
    match r with
    | Json.jobj kvs => kvs.any (fun kv => kv.1 == k)
    | _ => false

/-- `pd.to_datetime(cell, errors="coerce")` on one cell: an ISO date string
parses, everything else coerces to `NaT` (`jdate none`); it never raises.
(The full pandas parser accepts more string formats; the scraper only ever
persists `YYYY-MM-DD` strings, which this model covers.) -/
def convertDateCell (v : Json) : Json :=
  match v with
  | Json.jstr s => Json.jdate (parseDate s)
  | _ => Json.jdate none

/-- Date conversion applied to one row of the reviews dataframe. -/
def convertRowDate (r : Json) : Json :=
  match r with
  | Json.jobj kvs =>
    Json.jobj (kvs.map fun kv =>
      if kv.1 == "date" then (kv.1, convertDateCell kv.2) else kv)
  | other => other

/-- `if not reviews_df.empty and "date" in reviews_df.columns:` followed by
the column conversion. -/
def convertDates (rows : List Json) : List Json :=
  if rows.isEmpty then rows
  else if colContains rows "date" then rows.map convertRowDate
  else rows

/-- `load_data`: `none` models the `(None, None, None)` returns (missing file,
or any exception while reading/parsing/building the dataframes); otherwise the
three dataframes, with the review date column converted. -/
def load_data (file : Option (Option Json)) :
    Option (List Json × List Json × List Json) :=
  match file with
  | none => none
  | some none => none
  | some (some j) =>
    match getSection j "reviews", getSection j "products",
        getSection j "testimonials" with
    | some rs, some ps, some ts => some (convertDates rs, ps, ts)
    | _, _, _ => none

/-- The reviews-dataframe row for one persisted review record after the date
conversion. -/
def loadedReviewRow (rv : Review) : Json :=
  Json.jobj [("id", Json.jstr rv.id), ("title", Json.jstr rv.title),
    ("text", Json.jstr rv.text), ("rating", Json.jnum rv.rating),
    ("date", Json.jdate (parseDate rv.date)),
    ("section", Json.jstr rv.sectionName),
    ("sentiment", Json.jstr rv.sentiment),
    ("confidence", Json.jnum rv.confidence)]

lemma convertRowDate_toJson (rv : Review) :
    convertRowDate (Review.toJson rv) = loadedReviewRow rv := rfl

lemma convertDates_toJson (rvs : List Review) :
    convertDates (rvs.map Review.toJson) = rvs.map loadedReviewRow := by
  cases rvs with
  | nil => rfl
  | cons rv rest =>
    have hcol : colContains (Review.toJson rv :: rest.map Review.toJson) "date"
        = true := by
      simp [colContains, Review.toJson]
    simp only [List.map_cons, convertDates, List.isEmpty_cons, hcol,
      if_false, if_true, Bool.false_eq_true, List.map_map]
    rw [convertRowDate_toJson]
    congr 1

lemma getSection_allData_reviews (rvs : List Review) (pds : List Product)
    (tms : List Testimonial) :
    getSection (allDataJson rvs pds tms) "reviews" = some (rvs.map Review.toJson) := rfl

lemma getSection_allData_products (rvs : List Review) (pds : List Product)
    (tms : List Testimonial) :
    getSection (allDataJson rvs pds tms) "products" = some (pds.map Product.toJson) := rfl

lemma getSection_allData_testimonials (rvs : List Review) (pds : List Product)
    (tms : List Testimonial) :
    getSection (allDataJson rvs pds tms) "testimonials"
      = some (tms.map Testimonial.toJson) := rfl

/-- C2: every scraped review is normalized into a record with exactly the
fields id, title, text, rating, date, section, sentiment, confidence; `main`
persists the data as a JSON object with exactly the top-level keys
`reviews`, `products`, `testimonials`; and `load_data` reads that object back
into three dataframes with one row per persisted record, each review row
keeping all its fields with the date parsed. -/
theorem persist_and_load_roundtrip (rvs : List Review) (pds : List Product)
    (tms : List Testimonial) :
    objKeys (allDataJson rvs pds tms) = ["reviews", "products", "testimonials"] ∧
    (∀ rv : Review, objKeys (Review.toJson rv) =
      ["id", "title", "text", "rating", "date", "section", "sentiment",
        "confidence"]) ∧
    load_data (some (some (allDataJson rvs pds tms))) =
      some (rvs.map loadedReviewRow, pds.map Product.toJson,
        tms.map Testimonial.toJson) ∧
    (rvs.map loadedReviewRow).length = rvs.length ∧
    (pds.map Product.toJson).length = pds.length ∧
    (tms.map Testimonial.toJson).length = tms.length := by
  refine ⟨rfl, fun rv => rfl, ?_, List.length_map _ _, List.length_map _ _,
    List.length_map _ _⟩
  simp only [load_data, getSection_allData_reviews, getSection_allData_products,
    getSection_allData_testimonials, convertDates_toJson]

/-- C10: `load_data` never raises: a missing file and a file that fails to
read or parse both give the `(None, None, None)` result; a top-level key
missing from a parsed object defaults to an empty section; and a review date
cell that does not parse is coerced to `NaT` instead of raising. -/
theorem load_data_error_handling (kvs : List (String × Json)) (k s : String) :
    load_data none = none ∧
    load_data (some none) = none ∧
    (lookupKey kvs k = none → getSection (Json.jobj kvs) k = some []) ∧
    load_data (some (some (Json.jobj []))) = some ([], [], []) ∧
    (parseDate s = none → convertDateCell (Json.jstr s) = Json.jdate none) := by
  refine ⟨rfl, rfl, ?_, rfl, ?_⟩
  · intro h
    simp [getSection, h]
  · intro h
    simp [convertDateCell, h]

/-- Witness for C10: an object with no keys yields an empty reviews section,
and a non-date string coerces to `NaT`. -/
theorem load_data_error_handling_witness :
    getSection (Json.jobj []) "reviews" = some [] ∧
    convertDateCell (Json.jstr "bad") = Json.jdate none :=
  ⟨(load_data_error_handling [] "reviews" "bad").2.2.1 rfl,
    (load_data_error_handling [] "reviews" "bad").2.2.2.2 rfl⟩

/-! ## Module-level mutable state

The only module-level mutable state in the program: `sentiment_pipeline` in
`scraper.py` and the single cached result of the `@st.cache_data`-decorated
`load_data` in `app.py`.  Operations are embedded as explicit
state-passing functions.  The `attempt` parameter of `load_sentiment_model`
is the outcome of constructing the Hugging Face pipeline when the code gets
that far: `none` when `pipeline(...)` raises (the except branch assigns
`None` again), `some p` when it succeeds.
-/

structure ModuleState where
  sentiment_pipeline : Option PipelineObj
  data_cache : Option (Option (List Json × List Json × List Json))

/-- `load_sentiment_model`: constructs the pipeline only when the module slot
is `None`, stores the outcome there, and returns the slot. -/
def load_sentiment_model (attempt : Option PipelineObj) (s : ModuleState) :
    Option PipelineObj × ModuleState :=
  match s.sentiment_pipeline with
  | some p => (some p, s)
  | none => (attempt, { s with sentiment_pipeline := attempt })

/-- `load_data` under `@st.cache_data`: the first call computes and stores the
result (whatever it is, including the `(None, None, None)` triple); later
calls return the stored result. -/
def load_data_cached (file : Option (Option Json)) (s : ModuleState) :
    Option (List Json × List Json × List Json) × ModuleState :=
  match s.data_cache with
  | some r => (r, s)
  | none => (load_data file, { s with data_cache := some (load_data file) })

/-- C6: the two module-level caches are isolated and never evicted: loading
the sentiment model never touches the dataframe cache, the cached `load_data`
never touches the pipeline slot, and a filled slot of either cache is left
unchanged by further calls. -/
theorem module_state_isolated (attempt : Option PipelineObj)
    (file : Option (Option Json)) (s : ModuleState) (p : PipelineObj)
    (r : Option (List Json × List Json × List Json)) :
    (load_sentiment_model attempt s).2.data_cache = s.data_cache ∧
    (load_data_cached file s).2.sentiment_pipeline = s.sentiment_pipeline ∧
    (s.sentiment_pipeline = some p →
      (load_sentiment_model attempt s).2.sentiment_pipeline = some p) ∧
    (s.data_cache = some r → (load_data_cached file s).2.data_cache = some r) := by
  refine ⟨?_, ?_, ?_, ?_⟩
  · cases h : s.sentiment_pipeline <;> simp [load_sentiment_model, h]
  · cases h : s.data_cache <;> simp [load_data_cached, h]
  · intro h; simp [load_sentiment_model, h]
  · intro h; simp [load_data_cached, h]

/-- A concrete pipeline object for witnesses. -/
def posPipeline : PipelineObj := ⟨fun _ => some ("POSITIVE", 9 / 10)⟩

/-- Witness for C6 at a concrete module state. -/
theorem module_state_isolated_witness :
    (load_sentiment_model none ⟨some posPipeline, some none⟩).2.sentiment_pipeline
        = some posPipeline ∧
    (load_data_cached none ⟨some posPipeline, some none⟩).2.data_cache
        = some none :=
  ⟨(module_state_isolated none none ⟨some posPipeline, some none⟩
      posPipeline none).2.2.1 rfl,
    (module_state_isolated none none ⟨some posPipeline, some none⟩
      posPipeline none).2.2.2 rfl⟩

/-- C7: `load_sentiment_model` is idempotent in the module cache: once the
slot holds a pipeline, every later call returns that same object and the
state unchanged, whatever a fresh construction would give; and after a failed
load the slot is still `None`, so the next call attempts the construction
again and returns its outcome. -/
theorem load_sentiment_model_idempotent (attempt retry : Option PipelineObj)
    (s : ModuleState) (p : PipelineObj) :
    (s.sentiment_pipeline = some p →
      load_sentiment_model attempt s = (some p, s)) ∧
    (s.sentiment_pipeline = none →
      (load_sentiment_model none s).2.sentiment_pipeline = none ∧
      (load_sentiment_model retry ((load_sentiment_model none s).2)).1 = retry) := by
  constructor
  · intro h; simp [load_sentiment_model, h]
  · intro h
    constructor
    · simp [load_sentiment_model, h]
    · cases hr : retry <;> simp [load_sentiment_model, h, hr]

/-- Witness for C7: a filled slot is returned as is, and a failed load retries. -/
theorem load_sentiment_model_idempotent_witness :
    load_sentiment_model none ⟨some posPipeline, none⟩ =
        (some posPipeline, ⟨some posPipeline, none⟩) ∧
    (load_sentiment_model (some posPipeline)
        ((load_sentiment_model none ⟨none, none⟩).2)).1 = some posPipeline :=
  ⟨(load_sentiment_model_idempotent none none ⟨some posPipeline, none⟩
      posPipeline).1 rfl,
    ((load_sentiment_model_idempotent none (some posPipeline) ⟨none, none⟩
      posPipeline).2 rfl).2⟩

/-! ## `scrape_products`: Selenium attempt and BeautifulSoup fallback

`scrape_products` initialises `all_products = []`, runs the Selenium block in
a try, and on any exception falls through to the BeautifulSoup block, which
keeps appending to the same `all_products` list; an exception inside the
fallback block returns `[]`.  Each attempt is modelled by the products it
appended before finishing or raising, together with a flag telling whether it
raised. -/

/-- One fetch attempt: the products appended before the attempt finished or
raised, and whether it raised. -/
structure FetchAttempt where
  collected : List Product
  raised : Bool
deriving DecidableEq, Repr

/-- Control flow of `scrape_products`: a successful Selenium attempt returns
its products; a failed one falls back to the BeautifulSoup attempt, which
starts from the products the Selenium attempt had already appended and on its
own exception returns `[]`. -/
def scrape_products (selenium fallback : FetchAttempt) : List Product :=
  if selenium.raised = false then selenium.collected
  else if fallback.raised then []
  else selenium.collected ++ fallback.collected

def prodA : Product :=
  ⟨"product-1", "Box of Chocolate Candy", "u1", "$9.99", "d1", "i1", "Products"⟩

def prodB : Product :=
  ⟨"product-2", "Dragon Energy Potion", "u2", "$4.99", "d2", "i2", "Products"⟩

/-- C5 counterexample: when the Selenium attempt raises after having already
collected a product, the BeautifulSoup fallback is run as an alternative
fetch method and the result mixes both attempts, so partial results are
carried over between attempts (the output equals neither single attempt nor
the empty failure result). -/
theorem scrape_products_carries_partial_results :
    scrape_products ⟨[prodA], true⟩ ⟨[prodB], false⟩ = [prodA, prodB] ∧
    [prodA, prodB] ≠ [prodA] ∧
    [prodA, prodB] ≠ [prodB] ∧
    [prodA, prodB] ≠ ([] : List Product) := by
  refine ⟨rfl, by decide, by decide, by decide⟩

/-- C5 (amended): each scraper guards its network loop with a single
try/except, and `scrape_reviews` on a mid-loop exception discards all partial
results and returns `[]`; `scrape_products`, however, falls back from
Selenium to the BeautifulSoup method on any Selenium exception and carries
the products already collected by the failed attempt into the fallback
result, while an exception in the fallback itself returns `[]`. -/
theorem scrape_products_fallback_spec (selenium fallback : FetchAttempt)
    (model : Option PipelineObj) :
    (selenium.raised = false → scrape_products selenium fallback = selenium.collected) ∧
    (selenium.raised = true → fallback.raised = true →
      scrape_products selenium fallback = []) ∧
    (selenium.raised = true → fallback.raised = false →
      scrape_products selenium fallback = selenium.collected ++ fallback.collected) ∧
    (scrape_reviews exnAfterOneServer model).2 = [] := by
  refine ⟨?_, ?_, ?_, ?_⟩
  · intro h; simp [scrape_products, h]
  · intro h1 h2; simp [scrape_products, h1, h2]
  · intro h1 h2; simp [scrape_products, h1, h2]
  · cases model with
    | none => rfl
    | some f => rfl

/-- Witness for the amended C5 at concrete attempts. -/
theorem scrape_products_fallback_spec_witness :
    scrape_products ⟨[prodA], false⟩ ⟨[prodB], true⟩ = [prodA] :=
  (scrape_products_fallback_spec ⟨[prodA], false⟩ ⟨[prodB], true⟩ none).1 rfl

/-! ## The reviews dashboard (`app.py`, Reviews section)

A typed view of one row of the loaded reviews dataframe as the dashboard uses
it: the converted date (`none` is `NaT`) and the columns the metrics read.
The month slider offers `months` and the code filters with
`(date.dt.month == month_idx) & (date.dt.year == 2023)`; a `NaT` date
satisfies neither comparison. -/

structure ReviewRow where
  date : Option Date
  title : String
  text : String
  rating : Int
  sentiment : String
  confidence : ℚ
deriving DecidableEq, Repr

def months : List String :=
  ["Jan", "Feb", "Mar", "Apr", "May", "Jun", "Jul", "Aug", "Sep", "Oct",
   "Nov", "Dec"]

/-- `month_idx = months.index(selected_month_name) + 1`. -/
def monthIdx (name : String) : Nat := months.indexOf name + 1

/-- The month filter of the Reviews section. -/
def filterMonth (df : List ReviewRow) (midx : Nat) : List ReviewRow :=
  df.filter fun r =>
    match r.date with
    | some d => d.month == midx && d.year == 2023
    | none => false

/-- `total_reviews = len(filtered_df)`. -/
def total_reviews (df : List ReviewRow) (midx : Nat) : Nat :=
  (filterMonth df midx).length

/-- `avg_rating = filtered_df["rating"].mean()` (sum over count). -/
def avg_rating (df : List ReviewRow) (midx : Nat) : ℚ :=
  ((filterMonth df midx).map (fun r => (r.rating : ℚ))).sum
    / ((filterMonth df midx).length : ℚ)

/-- `five_star = len(filtered_df[filtered_df["rating"] == 5])`. -/
def five_star (df : List ReviewRow) (midx : Nat) : Nat :=
  ((filterMonth df midx).filter (fun r => r.rating == 5)).length

/-- `one_star = len(filtered_df[filtered_df["rating"] == 1])`. -/
def one_star (df : List ReviewRow) (midx : Nat) : Nat :=
  ((filterMonth df midx).filter (fun r => r.rating == 1)).length

/-- `rating_counts = filtered_df["rating"].value_counts()`, as the count of
each rating value. -/
def rating_counts (df : List ReviewRow) (midx : Nat) (k : Int) : Nat :=
  ((filterMonth df midx).filter (fun r => r.rating == k)).length

/-- The guard of the sentiment-analysis section:
`if "sentiment" in filtered_df.columns and "confidence" in filtered_df.columns:`. -/
def show_sentiment (cols : List String) : Bool :=
  cols.contains "sentiment" && cols.contains "confidence"

/-- C1: for any loaded reviews dataframe and any month of the slider, the
filtered record set is exactly the reviews dated in that month of 2023, and
every displayed metric accumulates over that filtered set: its length, the
mean of its ratings, the counts of 5-star and 1-star rows, and the group-by
count of each rating value. -/
theorem reviews_dashboard_month_aggregates (df : List ReviewRow) (name : String)
    (hname : name ∈ months) :
    (1 ≤ monthIdx name ∧ monthIdx name ≤ 12) ∧
    (∀ r, r ∈ filterMonth df (monthIdx name) ↔
      r ∈ df ∧ ∃ d, r.date = some d ∧ d.month = monthIdx name ∧ d.year = 2023) ∧
    total_reviews df (monthIdx name) = (filterMonth df (monthIdx name)).length ∧
    (filterMonth df (monthIdx name) ≠ [] →
      avg_rating df (monthIdx name) * (total_reviews df (monthIdx name) : ℚ) =
        ((filterMonth df (monthIdx name)).map (fun r => (r.rating : ℚ))).sum) ∧
    five_star df (monthIdx name) =
      ((filterMonth df (monthIdx name)).filter (fun r => r.rating = 5)).length ∧
    one_star df (monthIdx name) =
      ((filterMonth df (monthIdx name)).filter (fun r => r.rating = 1)).length ∧
    (∀ k : Int, rating_counts df (monthIdx name) k =
      ((filterMonth df (monthIdx name)).filter (fun r => r.rating = k)).length) := by
  have hidx : months.indexOf name < months.length :=
    List.indexOf_lt_length.mpr hname
  have hlen : months.length = 12 := rfl
  rw [hlen] at hidx
  refine ⟨⟨by simp only [monthIdx]; omega, by simp only [monthIdx]; omega⟩,
    ?_, rfl, ?_, ?_, ?_, ?_⟩
  · intro r
    simp only [filterMonth, List.mem_filter]
    constructor
    · rintro ⟨hmem, hp⟩
      refine ⟨hmem, ?_⟩
      cases hd : r.date with
      | none => rw [hd] at hp; simp at hp
      | some d =>
        rw [hd] at hp
        simp only [Bool.and_eq_true, beq_iff_eq] at hp
        exact ⟨d, rfl, hp.1, hp.2⟩
    · rintro ⟨hmem, d, hd, h1, h2⟩
      refine ⟨hmem, ?_⟩
      rw [hd]
      simp [h1, h2]
  · intro h
    have hl : ((filterMonth df (monthIdx name)).length : ℚ) ≠ 0 := by
      have : (filterMonth df (monthIdx name)).length ≠ 0 := by
        simpa [List.length_eq_zero] using h
      exact_mod_cast this
    simp only [avg_rating, total_reviews]
    exact div_mul_cancel₀ _ hl
  · simp only [five_star]
    congr 1
  · simp only [one_star]
    congr 1
  · intro k
    simp only [rating_counts]
    congr 1

/-- A one-row dataframe used to witness the dashboard theorem. -/
def demoDf : List ReviewRow :=
  [⟨some ⟨2023, 1, 15⟩, "Box Review", "nice box", 5, "POSITIVE", 1 / 2⟩]

/-- Witness for C1 at a concrete dataframe and the month Jan. -/
theorem reviews_dashboard_month_aggregates_witness :
    (1 ≤ monthIdx "Jan" ∧ monthIdx "Jan" ≤ 12) ∧
    avg_rating demoDf (monthIdx "Jan") * (total_reviews demoDf (monthIdx "Jan") : ℚ) =
      ((filterMonth demoDf (monthIdx "Jan")).map (fun r => (r.rating : ℚ))).sum :=
  ⟨(reviews_dashboard_month_aggregates demoDf "Jan" (by decide)).1,
    (reviews_dashboard_month_aggregates demoDf "Jan" (by decide)).2.2.2.1
      (by decide)⟩

/-- C4: sentiment is optional: with no loaded model, an empty text, or a
classification call that raises, the record still gets sentiment `UNKNOWN`
with confidence `0.0`; a successful classification stores the model label and
its score rounded to 4 decimals; record production does not depend on the
sentiment outcome; and the dashboard renders the sentiment section exactly
when both a `sentiment` and a `confidence` column are present. -/
theorem sentiment_optional (f : PipelineObj) (text lab : String) (sc : ℚ)
    (model : Option PipelineObj) (nodes : List RawNode) (cols : List String) :
    computeSentiment none text = ("UNKNOWN", 0) ∧
    computeSentiment (some f) "" = ("UNKNOWN", 0) ∧
    (text ≠ "" → f.classify (text.take 512) = none →
      computeSentiment (some f) text = ("UNKNOWN", 0)) ∧
    (text ≠ "" → f.classify (text.take 512) = some (lab, sc) →
      computeSentiment (some f) text = (lab, round4 sc)) ∧
    (processEdges model nodes).length = (processEdges none nodes).length ∧
    (show_sentiment cols = true ↔ "sentiment" ∈ cols ∧ "confidence" ∈ cols) := by
  refine ⟨rfl, rfl, ?_, ?_, processEdges_length_model model nodes, ?_⟩
  · intro h1 h2
    simp [computeSentiment, h1, h2]
  · intro h1 h2
    simp [computeSentiment, h1, h2]
  · simp [show_sentiment]

/-- Witness for C4: a successful classification at a concrete model and text. -/
theorem sentiment_optional_witness :
    computeSentiment (some posPipeline) "great" = ("POSITIVE", round4 (9 / 10)) :=
  (sentiment_optional posPipeline "great" "POSITIVE" (9 / 10) none [] []).2.2.2.1
    (by decide) rfl
